import Mathlib

/-!
Verification of the house-price prediction service (`src/main.py`).

The service deserializes a fitted scaler and model at startup, then for each
request builds a one-row dataframe from the validated input record, scales the
`area` column, derives four engineered features, reorders the columns into the
fixed `feature_order`, and calls the model, wrapping the result (or any raised
error) into a single-key payload.

The embedding models the one-row pandas dataframe as a partial map from column
names to rational values, the scaler and model as abstract fallible functions
(`Except String`), and the request handler as the exact pipeline of
`src/main.py`'s `predict`.
-/

namespace HousePrice

/-- The column names that ever appear in the one-row dataframe. -/
inductive Col where
  | area
  | bedrooms
  | bathrooms
  | stories
  | parking
  | furnishingstatus
  | mainroad_yes
  | guestroom_yes
  | basement_yes
  | hotwaterheating_yes
  | airconditioning_yes
  | prefarea_yes
  | area_bedrooms
  | stories_bathrooms
  | luxury_index
  | amenities_count
deriving DecidableEq, Repr

/-- `feature_order` from `src/main.py` lines 22-28: the positional layout the
model was fit against. -/
def feature_order : List Col :=
  [Col.area, Col.bedrooms, Col.bathrooms, Col.stories, Col.parking,
   Col.furnishingstatus, Col.mainroad_yes, Col.guestroom_yes,
   Col.basement_yes, Col.hotwaterheating_yes, Col.airconditioning_yes,
   Col.prefarea_yes, Col.area_bedrooms, Col.stories_bathrooms,
   Col.luxury_index, Col.amenities_count]

/-- `amenity_cols` from `src/main.py` lines 56-59. -/
def amenity_cols : List Col :=
  [Col.mainroad_yes, Col.guestroom_yes, Col.basement_yes,
   Col.hotwaterheating_yes, Col.airconditioning_yes, Col.prefarea_yes]

/-- The pydantic `HouseData` model (`src/main.py` lines 30-42): `area` is a
float, the remaining eleven fields are integers. Numeric values are embedded
as rationals. -/
structure HouseData where
  area : ℚ
  bedrooms : ℤ
  bathrooms : ℤ
  stories : ℤ
  parking : ℤ
  furnishingstatus : ℤ
  mainroad_yes : ℤ
  guestroom_yes : ℤ
  basement_yes : ℤ
  hotwaterheating_yes : ℤ
  airconditioning_yes : ℤ
  prefarea_yes : ℤ
deriving DecidableEq, Repr

/-- A one-row pandas dataframe: a partial map from column name to the numeric
value in that column of the single row. -/
def Row : Type := Col → Option ℚ

/-- `pd.DataFrame([data.dict()])` (`src/main.py` line 47): the initial row
holds exactly the twelve input fields. -/
def HouseData.toRow (d : HouseData) : Row := fun c =>
  match c with
  | Col.area => some d.area
  | Col.bedrooms => some (d.bedrooms : ℚ)
  | Col.bathrooms => some (d.bathrooms : ℚ)
  | Col.stories => some (d.stories : ℚ)
  | Col.parking => some (d.parking : ℚ)
  | Col.furnishingstatus => some (d.furnishingstatus : ℚ)
  | Col.mainroad_yes => some (d.mainroad_yes : ℚ)
  | Col.guestroom_yes => some (d.guestroom_yes : ℚ)
  | Col.basement_yes => some (d.basement_yes : ℚ)
  | Col.hotwaterheating_yes => some (d.hotwaterheating_yes : ℚ)
  | Col.airconditioning_yes => some (d.airconditioning_yes : ℚ)
  | Col.prefarea_yes => some (d.prefarea_yes : ℚ)
  | _ => none

/-- Column assignment `df[c] = v`. -/
def setCol (r : Row) (c : Col) (v : ℚ) : Row :=
  fun c2 => if c2 = c then some v else r c2

/-- Column read `df[c]`; raises `KeyError` when the column is absent. -/
def getCol (r : Row) (c : Col) : Except String ℚ :=
  match r c with
  | some v => Except.ok v
  | none => Except.error "KeyError"

/-- Column selection `df[cols]`; raises `KeyError` when any column is absent. -/
def selectCols (r : Row) : List Col → Except String (List ℚ)
  | [] => Except.ok []
  | c :: cs =>
    match r c, selectCols r cs with
    | some v, Except.ok vs => Except.ok (v :: vs)
    | none, _ => Except.error "KeyError"
    | some _, Except.error e => Except.error e

/-- The fitted scaler artifact: an opaque fallible numeric transform. -/
structure Scaler where
  transform : ℚ → Except String ℚ

/-- The fitted model artifact: an opaque fallible map from a feature vector to
a list of outputs. -/
structure Model where
  predict : List ℚ → Except String (List ℚ)

/-- The response payload: either `a prediction key with a float` or
`an error key with a string` (`src/main.py` lines 72 and 75). -/
inductive Payload where
  | prediction (v : ℚ)
  | error (s : String)
deriving DecidableEq, Repr

/-- The dataframe pipeline of `predict` (`src/main.py` lines 47-69): build the
row, scale `area`, derive `area_bedrooms`, `stories_bathrooms`,
`amenities_count` and `luxury_index`, then reindex by `feature_order`. -/
def featureVector (scaler : Scaler) (data : HouseData) : Except String (List ℚ) := do
  let df0 := data.toRow
  let rawArea ← getCol df0 Col.area
  let scaledArea ← scaler.transform rawArea
  let df1 := setCol df0 Col.area scaledArea
  let a ← getCol df1 Col.area
  let b ← getCol df1 Col.bedrooms
  let df2 := setCol df1 Col.area_bedrooms (a * b)
  let s ← getCol df2 Col.stories
  let ba ← getCol df2 Col.bathrooms
  let df3 := setCol df2 Col.stories_bathrooms (s * ba)
  let ams ← selectCols df3 amenity_cols
  let df4 := setCol df3 Col.amenities_count ams.sum
  let ac ← getCol df4 Col.airconditioning_yes
  let hw ← getCol df4 Col.hotwaterheating_yes
  let gu ← getCol df4 Col.guestroom_yes
  let bs ← getCol df4 Col.basement_yes
  let df5 := setCol df4 Col.luxury_index (ac + hw + gu + bs)
  selectCols df5 feature_order

/-- `pred[0]` (`src/main.py` line 72): take the first output of the model,
raising `IndexError` on an empty output. -/
def firstPred (pred : List ℚ) : Except String ℚ :=
  match pred.head? with
  | some y => Except.ok y
  | none => Except.error "IndexError: index 0 is out of bounds"

/-- The body of the `try` block in `predict` (`src/main.py` lines 46-72). -/
def predictE (scaler : Scaler) (model : Model) (data : HouseData) : Except String ℚ := do
  let fv ← featureVector scaler data
  let pred ← model.predict fv
  firstPred pred

/-- The `/predict` handler (`src/main.py` lines 44-75): run the pipeline and
wrap the outcome, converting any raised error into an error payload. -/
def predict (scaler : Scaler) (model : Model) (data : HouseData) : Payload :=
  match predictE scaler model data with
  | Except.ok v => Payload.prediction v
  | Except.error e => Payload.error e

/-- Module-level artifact loading (`src/main.py` lines 16-20): load the model,
then the scaler; any failure raises a fatal `RuntimeError` that aborts
startup. -/
def loadArtifacts (loadModel : Except String Model)
    (loadScaler : Except String Scaler) : Except String (Model × Scaler) :=
  match loadModel with
  | Except.error e => Except.error ("Error loading model or scaler: " ++ e)
  | Except.ok m =>
    match loadScaler with
    | Except.error e => Except.error ("Error loading model or scaler: " ++ e)
    | Except.ok s => Except.ok (m, s)

/-- The value the pipeline computes for a given scaled area `a` and record
`d`, in `feature_order` layout. -/
def fvec (a : ℚ) (d : HouseData) : List ℚ :=
  [a, (d.bedrooms : ℚ), (d.bathrooms : ℚ), (d.stories : ℚ), (d.parking : ℚ),
   (d.furnishingstatus : ℚ), (d.mainroad_yes : ℚ), (d.guestroom_yes : ℚ),
   (d.basement_yes : ℚ), (d.hotwaterheating_yes : ℚ),
   (d.airconditioning_yes : ℚ), (d.prefarea_yes : ℚ),
   a * (d.bedrooms : ℚ), (d.stories : ℚ) * (d.bathrooms : ℚ),
   (d.airconditioning_yes : ℚ) + (d.hotwaterheating_yes : ℚ)
     + (d.guestroom_yes : ℚ) + (d.basement_yes : ℚ),
   ([(d.mainroad_yes : ℚ), (d.guestroom_yes : ℚ), (d.basement_yes : ℚ),
     (d.hotwaterheating_yes : ℚ), (d.airconditioning_yes : ℚ),
     (d.prefarea_yes : ℚ)]).sum]

theorem ebind_ok {α β : Type} (a : α) (f : α → Except String β) :
    (Except.ok a : Except String α) >>= f = f a := rfl

theorem ebind_error {α β : Type} (e : String) (f : α → Except String β) :
    (Except.error e : Except String α) >>= f = Except.error e := rfl

theorem featureVector_eq (sc : Scaler) (d : HouseData) (a : ℚ)
    (h : sc.transform d.area = Except.ok a) :
    featureVector sc d = Except.ok (fvec a d) := by
  have h1 : featureVector sc d
      = sc.transform d.area >>= fun sa => Except.ok (fvec sa d) := rfl
  rw [h1, h]
  rfl

theorem featureVector_error (sc : Scaler) (d : HouseData) (e : String)
    (h : sc.transform d.area = Except.error e) :
    featureVector sc d = Except.error e := by
  have h1 : featureVector sc d
      = sc.transform d.area >>= fun sa => Except.ok (fvec sa d) := rfl
  rw [h1, h]
  rfl

theorem predictE_eq (sc : Scaler) (m : Model) (d : HouseData) :
    predictE sc m d
      = featureVector sc d >>= fun fv => m.predict fv >>= firstPred := rfl

theorem fvec_length (a : ℚ) (d : HouseData) : (fvec a d).length = 16 := rfl

theorem featureVector_ok_length (sc : Scaler) (d : HouseData) (v : List ℚ)
    (h : featureVector sc d = Except.ok v) : v.length = 16 := by
  cases htr : sc.transform d.area with
  | ok a =>
    rw [featureVector_eq sc d a htr] at h
    cases h
    exact fvec_length a d
  | error e =>
    rw [featureVector_error sc d e htr] at h
    cases h

/-- The fixed identity scaler from the testable properties. -/
def idScaler : Scaler := ⟨fun x => Except.ok x⟩

/-- The deterministic stub model returning the sum of its input vector. -/
def sumModel : Model := ⟨fun v => Except.ok [v.sum]⟩

/-- The known record from the end-to-end testable property. -/
def sampleRecord : HouseData := ⟨1000, 2, 1, 1, 1, 1, 1, 0, 0, 0, 1, 0⟩

/-- The record with `mainroad_yes = 1`, `prefarea_yes = 1` and all other
amenity fields 0, exhibiting the luxury-index asymmetry. -/
def asymRecord : HouseData := ⟨1, 0, 0, 0, 0, 0, 1, 0, 0, 0, 0, 1⟩

/-- The all-zero record. -/
def zeroRecord : HouseData := ⟨0, 0, 0, 0, 0, 0, 0, 0, 0, 0, 0, 0⟩

/-- C1: for every valid input record (any record on which the scaler
succeeds), the feature vector passed to the model has exactly 16 elements in
the documented order: area, bedrooms, bathrooms, stories, parking,
furnishingstatus, the six amenity indicators, area_bedrooms,
stories_bathrooms, luxury_index, amenities_count. -/
theorem featureVector_sixteen_ordered (sc : Scaler) (d : HouseData) (a : ℚ)
    (h : sc.transform d.area = Except.ok a) :
    ∃ v, featureVector sc d = Except.ok v ∧ v.length = 16 ∧
      v = [a, (d.bedrooms : ℚ), (d.bathrooms : ℚ), (d.stories : ℚ),
        (d.parking : ℚ), (d.furnishingstatus : ℚ), (d.mainroad_yes : ℚ),
        (d.guestroom_yes : ℚ), (d.basement_yes : ℚ),
        (d.hotwaterheating_yes : ℚ), (d.airconditioning_yes : ℚ),
        (d.prefarea_yes : ℚ), a * (d.bedrooms : ℚ),
        (d.stories : ℚ) * (d.bathrooms : ℚ),
        (d.airconditioning_yes : ℚ) + (d.hotwaterheating_yes : ℚ)
          + (d.guestroom_yes : ℚ) + (d.basement_yes : ℚ),
        (d.mainroad_yes : ℚ) + (d.guestroom_yes : ℚ) + (d.basement_yes : ℚ)
          + (d.hotwaterheating_yes : ℚ) + (d.airconditioning_yes : ℚ)
          + (d.prefarea_yes : ℚ)] := by
  refine ⟨fvec a d, featureVector_eq sc d a h, rfl, ?_⟩
  simp [fvec, List.sum_cons, List.sum_nil, add_assoc]

theorem featureVector_sixteen_ordered_witness :
    ∃ v, featureVector idScaler sampleRecord = Except.ok v ∧ v.length = 16 := by
  obtain ⟨v, hv, hl, _⟩ :=
    featureVector_sixteen_ordered idScaler sampleRecord 1000 rfl
  exact ⟨v, hv, hl⟩

/-- C2: the derived `luxury_index` (position 14 of the feature vector) equals
`airconditioning_yes + hotwaterheating_yes + guestroom_yes + basement_yes`,
so it is independent of `mainroad_yes` and `prefarea_yes`. -/
theorem luxury_index_four_fields (sc : Scaler) (d : HouseData) (a : ℚ)
    (h : sc.transform d.area = Except.ok a) :
    ∃ v, featureVector sc d = Except.ok v ∧
      v[14]? = some ((d.airconditioning_yes : ℚ) + (d.hotwaterheating_yes : ℚ)
        + (d.guestroom_yes : ℚ) + (d.basement_yes : ℚ)) :=
  ⟨fvec a d, featureVector_eq sc d a h, rfl⟩

theorem luxury_index_four_fields_witness :
    ∃ v, featureVector idScaler asymRecord = Except.ok v ∧ v[14]? = some 0 := by
  obtain ⟨v, hv, hx⟩ := luxury_index_four_fields idScaler asymRecord 1 rfl
  refine ⟨v, hv, ?_⟩
  rw [hx]
  norm_num [asymRecord]

/-- C3: the derived `amenities_count` (position 15 of the feature vector)
equals the sum of all six binary amenity fields. -/
theorem amenities_count_six_fields (sc : Scaler) (d : HouseData) (a : ℚ)
    (h : sc.transform d.area = Except.ok a) :
    ∃ v, featureVector sc d = Except.ok v ∧
      v[15]? = some ((d.mainroad_yes : ℚ) + (d.guestroom_yes : ℚ)
        + (d.basement_yes : ℚ) + (d.hotwaterheating_yes : ℚ)
        + (d.airconditioning_yes : ℚ) + (d.prefarea_yes : ℚ)) := by
  refine ⟨fvec a d, featureVector_eq sc d a h, ?_⟩
  have h15 : (fvec a d)[15]?
      = some (([(d.mainroad_yes : ℚ), (d.guestroom_yes : ℚ),
          (d.basement_yes : ℚ), (d.hotwaterheating_yes : ℚ),
          (d.airconditioning_yes : ℚ), (d.prefarea_yes : ℚ)]).sum) := rfl
  rw [h15]
  simp [List.sum_cons, List.sum_nil, add_assoc]

theorem amenities_count_six_fields_witness :
    ∃ v, featureVector idScaler asymRecord = Except.ok v ∧ v[15]? = some 2 := by
  obtain ⟨v, hv, hx⟩ := amenities_count_six_fields idScaler asymRecord 1 rfl
  refine ⟨v, hv, ?_⟩
  rw [hx]
  norm_num [asymRecord]

/-- C4: the derived `area_bedrooms` (position 12) equals the scaled area times
`bedrooms`, and `stories_bathrooms` (position 13) equals `stories` times
`bathrooms`, for every record and every scaler, zero values included. -/
theorem interaction_features_products (sc : Scaler) (d : HouseData) (a : ℚ)
    (h : sc.transform d.area = Except.ok a) :
    ∃ v, featureVector sc d = Except.ok v ∧
      v[12]? = some (a * (d.bedrooms : ℚ)) ∧
      v[13]? = some ((d.stories : ℚ) * (d.bathrooms : ℚ)) :=
  ⟨fvec a d, featureVector_eq sc d a h, rfl, rfl⟩

theorem interaction_features_products_witness :
    ∃ v, featureVector idScaler zeroRecord = Except.ok v ∧
      v[12]? = some 0 ∧ v[13]? = some 0 := by
  obtain ⟨v, hv, h12, h13⟩ :=
    interaction_features_products idScaler zeroRecord 0 rfl
  refine ⟨v, hv, ?_, ?_⟩
  · rw [h12]; norm_num [zeroRecord]
  · rw [h13]; norm_num [zeroRecord]

/-- C5: the scaler touches only `area`: positions 1 through 11 of the feature
vector are the raw input values unchanged, position 0 is the scaler output on
the raw area, and with an identity scaler that output is the raw area. -/
theorem scaler_applied_to_area_only (sc : Scaler) (d : HouseData) (a : ℚ)
    (h : sc.transform d.area = Except.ok a) :
    ∃ v, featureVector sc d = Except.ok v ∧ v[0]? = some a ∧
      v[1]? = some (d.bedrooms : ℚ) ∧ v[2]? = some (d.bathrooms : ℚ) ∧
      v[3]? = some (d.stories : ℚ) ∧ v[4]? = some (d.parking : ℚ) ∧
      v[5]? = some (d.furnishingstatus : ℚ) ∧
      v[6]? = some (d.mainroad_yes : ℚ) ∧ v[7]? = some (d.guestroom_yes : ℚ) ∧
      v[8]? = some (d.basement_yes : ℚ) ∧
      v[9]? = some (d.hotwaterheating_yes : ℚ) ∧
      v[10]? = some (d.airconditioning_yes : ℚ) ∧
      v[11]? = some (d.prefarea_yes : ℚ) ∧
      ((∀ x, sc.transform x = Except.ok x) → a = d.area) := by
  refine ⟨fvec a d, featureVector_eq sc d a h, rfl, rfl, rfl, rfl, rfl, rfl,
    rfl, rfl, rfl, rfl, rfl, rfl, ?_⟩
  intro hid
  simpa using h.symm.trans (hid d.area)

theorem scaler_applied_to_area_only_witness :
    ∃ v, featureVector idScaler sampleRecord = Except.ok v ∧
      v[0]? = some 1000 ∧ v[1]? = some 2 := by
  obtain ⟨v, hv, h0, h1, _⟩ :=
    scaler_applied_to_area_only idScaler sampleRecord 1000 rfl
  refine ⟨v, hv, h0, ?_⟩
  rw [h1]
  norm_num [sampleRecord]

/-- C10: positions 14 (`luxury_index`) and 15 (`amenities_count`) of the
feature vector always satisfy
`amenities_count = luxury_index + mainroad_yes + prefarea_yes`. -/
theorem amenities_eq_luxury_plus_two (sc : Scaler) (d : HouseData) (a : ℚ)
    (h : sc.transform d.area = Except.ok a) :
    ∃ v x y, featureVector sc d = Except.ok v ∧ v[14]? = some x ∧
      v[15]? = some y ∧
      y = x + (d.mainroad_yes : ℚ) + (d.prefarea_yes : ℚ) := by
  refine ⟨fvec a d,
    (d.airconditioning_yes : ℚ) + (d.hotwaterheating_yes : ℚ)
      + (d.guestroom_yes : ℚ) + (d.basement_yes : ℚ),
    ([(d.mainroad_yes : ℚ), (d.guestroom_yes : ℚ), (d.basement_yes : ℚ),
      (d.hotwaterheating_yes : ℚ), (d.airconditioning_yes : ℚ),
      (d.prefarea_yes : ℚ)]).sum,
    featureVector_eq sc d a h, rfl, rfl, ?_⟩
  simp only [List.sum_cons, List.sum_nil]
  ring

theorem amenities_eq_luxury_plus_two_witness :
    ∃ v x y, featureVector idScaler asymRecord = Except.ok v ∧
      v[14]? = some x ∧ v[15]? = some y ∧ y = x + 1 + 1 := by
  obtain ⟨v, x, y, hv, hx, hy, he⟩ :=
    amenities_eq_luxury_plus_two idScaler asymRecord 1 rfl
  refine ⟨v, x, y, hv, hx, hy, ?_⟩
  rw [he]
  norm_num [asymRecord]

/-- A scaler that always fails, for exercising the error path. -/
def failScaler : Scaler := ⟨fun _ => Except.error "boom"⟩

/-- C6: with the identity scaler and the sum stub model, the known record
`area 1000, bedrooms 2, bathrooms 1, stories 1, parking 1, furnishingstatus 1,
mainroad 1, guestroom 0, basement 0, hotwaterheating 0, airconditioning 1,
prefarea 0` produces exactly the feature vector
`[1000,2,1,1,1,1,1,0,0,0,1,0,2000,1,1,2]` and the prediction `3012`. -/
theorem stub_model_end_to_end :
    featureVector idScaler sampleRecord
      = Except.ok [1000, 2, 1, 1, 1, 1, 1, 0, 0, 0, 1, 0, 2000, 1, 1, 2] ∧
    predict idScaler sumModel sampleRecord = Payload.prediction 3012 := by
  have h1 : featureVector idScaler sampleRecord
      = Except.ok (fvec 1000 sampleRecord) :=
    featureVector_eq idScaler sampleRecord 1000 rfl
  have hsum : (fvec 1000 sampleRecord).sum = 3012 := by
    norm_num [fvec, sampleRecord, List.sum_cons, List.sum_nil]
  constructor
  · rw [h1]
    norm_num [fvec, sampleRecord, List.sum_cons, List.sum_nil]
  · have h2 : predictE idScaler sumModel sampleRecord = Except.ok 3012 := by
      rw [predictE_eq, h1, ebind_ok]
      show (Except.ok [(fvec 1000 sampleRecord).sum] : Except String (List ℚ))
          >>= firstPred = Except.ok 3012
      rw [ebind_ok, hsum]
      rfl
    simp [predict, h2]

/-- C7: every failure inside the handler body is caught and turned into an
error payload: a scaler failure or a model failure yields exactly that error
string as the payload, and the handler always returns either a prediction
payload or an error payload, never an unhandled fault. -/
theorem predict_errors_captured (sc : Scaler) (m : Model) (d : HouseData) :
    (∀ e, sc.transform d.area = Except.error e →
      predict sc m d = Payload.error e) ∧
    (∀ fv e, featureVector sc d = Except.ok fv → m.predict fv = Except.error e →
      predict sc m d = Payload.error e) ∧
    ((∃ v, predict sc m d = Payload.prediction v) ∨
      (∃ s, predict sc m d = Payload.error s)) := by
  refine ⟨?_, ?_, ?_⟩
  · intro e he
    have h2 : predictE sc m d = Except.error e := by
      rw [predictE_eq, featureVector_error sc d e he, ebind_error]
    simp [predict, h2]
  · intro fv e h1 h2
    have h3 : predictE sc m d = Except.error e := by
      rw [predictE_eq, h1, ebind_ok, h2, ebind_error]
    simp [predict, h3]
  · cases hp : predictE sc m d with
    | ok v => exact Or.inl ⟨v, by simp [predict, hp]⟩
    | error e => exact Or.inr ⟨e, by simp [predict, hp]⟩

theorem predict_errors_captured_witness :
    predict failScaler sumModel sampleRecord = Payload.error "boom" :=
  (predict_errors_captured failScaler sumModel sampleRecord).1 "boom" rfl

/-- C8: on success the handler returns a single prediction payload holding the
first output of the model on the assembled 16-element feature vector. -/
theorem predict_success_payload (sc : Scaler) (m : Model) (d : HouseData)
    (fv ys : List ℚ) (y : ℚ)
    (h1 : featureVector sc d = Except.ok fv)
    (h2 : m.predict fv = Except.ok ys)
    (h3 : ys.head? = some y) :
    predict sc m d = Payload.prediction y ∧ fv.length = 16 := by
  constructor
  · have hE : predictE sc m d = Except.ok y := by
      rw [predictE_eq, h1, ebind_ok, h2, ebind_ok]
      simp [firstPred, h3]
    simp [predict, hE]
  · exact featureVector_ok_length sc d fv h1

theorem predict_success_payload_witness :
    predict idScaler sumModel sampleRecord
      = Payload.prediction ((fvec 1000 sampleRecord).sum) ∧
    (fvec 1000 sampleRecord).length = 16 :=
  predict_success_payload idScaler sumModel sampleRecord
    (fvec 1000 sampleRecord) [(fvec 1000 sampleRecord).sum]
    ((fvec 1000 sampleRecord).sum) rfl rfl rfl

/-- C9: startup loading is fail-fast: if deserializing the model or the scaler
fails, `loadArtifacts` aborts with the fatal error, and it succeeds exactly
when both artifacts load — there is no partially-initialized success path. -/
theorem startup_load_fail_fast (lm : Except String Model)
    (ls : Except String Scaler) :
    (∀ e, lm = Except.error e →
      loadArtifacts lm ls
        = Except.error ("Error loading model or scaler: " ++ e)) ∧
    (∀ m e, lm = Except.ok m → ls = Except.error e →
      loadArtifacts lm ls
        = Except.error ("Error loading model or scaler: " ++ e)) ∧
    ((∃ p, loadArtifacts lm ls = Except.ok p) ↔
      (∃ m, lm = Except.ok m) ∧ (∃ s, ls = Except.ok s)) := by
  refine ⟨?_, ?_, ?_⟩
  · intro e he
    rw [he]
    rfl
  · intro m e hm hs
    rw [hm, hs]
    rfl
  · constructor
    · rintro ⟨p, hp⟩
      cases lm with
      | error e => simp [loadArtifacts] at hp
      | ok m =>
        cases ls with
        | error e => simp [loadArtifacts] at hp
        | ok s => exact ⟨⟨m, rfl⟩, ⟨s, rfl⟩⟩
    · rintro ⟨⟨m, hm⟩, ⟨s, hs⟩⟩
      rw [hm, hs]
      exact ⟨(m, s), rfl⟩

theorem startup_load_fail_fast_witness :
    loadArtifacts (Except.error "No such file") (Except.ok idScaler)
      = Except.error ("Error loading model or scaler: " ++ "No such file") :=
  (startup_load_fail_fast (Except.error "No such file")
    (Except.ok idScaler)).1 "No such file" rfl

end HousePrice
